import Mathlib

/-!
Verification of the webhook ingestion and inventory-correction pipeline of the
`fix-negative-stock` service, against its JavaScript source.

The embedding is shallow: each JavaScript function relevant to the claims is
translated into an executable Lean definition.  Quantities are modelled as
`Int` (JavaScript numbers used as integers throughout the source), byte
buffers as `List Nat`, and the dedupe `Map` as a lookup function
`String → Option Int` (key to insertion timestamp), which matches the
semantics of a JavaScript `Map` with `set`/`has`/`delete`.

External collaborators are abstracted as function parameters:
* `hmac` — HMAC-SHA256, a pure function from key bytes and message bytes to
  digest bytes;
* `enc` / `dec` — base64 encoding of a byte buffer to a string and the
  (forgiving) base64 decoding of a string to a byte buffer, as performed by
  Node's `digest('base64')` and `Buffer.from(s, 'base64')`; the only law used
  is that decoding an encoded buffer returns the buffer;
* `remote` — the Shopify GraphQL endpoint, mapping a mutation input to the
  `userErrors` list it reports;
* `parse` — tolerant JSON body parsing, `none` standing for an empty body, a
  parse failure, or a `null` document (all treated as `{}` by the source).
-/

/-! ## Correction Decision Engine (server.js) -/

/-- The quantity map built by `mapQuantities` in `server.js`: one entry per
quantity name, any of which may be absent (the source reads them with
`?? 0`). -/
structure QtyMap where
  on_hand : Option Int
  available : Option Int
  committed : Option Int
  incoming : Option Int
  deriving Repr, DecidableEq

/-- `shouldFix(map, raise)` from `server.js` (lines 174-180): decides whether
a quantity snapshot warrants a correction. -/
def shouldFix (map : QtyMap) (raise : Bool) : Bool :=
  let onHand := map.on_hand.getD 0
  let available := map.available.getD 0
  let committed := map.committed.getD 0
  let incoming := map.incoming.getD 0
  decide (onHand < 0) ||
    (decide (available < 0) &&
      (decide (committed = 0) || (raise && decide (committed > 0))) &&
      decide (incoming = 0))

/-- The target on-hand computation of `scanAllNegatives` in `server.js`
(line 204): `(raise && (m.committed ?? 0) > 0) ? (m.committed ?? 0) : 0`. -/
def targetOnHand (map : QtyMap) (raise : Bool) : Int :=
  if raise && decide (map.committed.getD 0 > 0) then map.committed.getD 0 else 0

/-- The decision rule as worded by the specification (claim C1): correction
iff `onHand < 0`, or `available < 0` and `incoming == 0` and
(`committed == 0` or `allowRaiseToCommitted`).  Stated separately from
`shouldFix` so the two can be compared. -/
def specDecide (map : QtyMap) (raise : Bool) : Bool :=
  let onHand := map.on_hand.getD 0
  let available := map.available.getD 0
  let committed := map.committed.getD 0
  let incoming := map.incoming.getD 0
  decide (onHand < 0) ||
    (decide (available < 0) && decide (incoming = 0) &&
      (decide (committed = 0) || raise))

/-- C1, counterexample: at the snapshot `onHand = 0`, `available = -1`,
`committed = -1`, `incoming = 0` with `allowRaiseToCommitted = true`, the
spec's condition decides a correction but the code's `shouldFix` does not, so
the claimed equivalence fails. -/
theorem c1_counterexample :
    specDecide ⟨some 0, some (-1), some (-1), some 0⟩ true = true ∧
    shouldFix ⟨some 0, some (-1), some (-1), some 0⟩ true = false := by
  decide

/-- C1 (amended): `shouldFix` decides a correction iff `onHand < 0`, or
(`available < 0` and `incoming == 0` and (`committed == 0` or
(`allowRaiseToCommitted` and `committed > 0`))); and whenever a correction is
decided, the target on-hand value is `committed` when `allowRaiseToCommitted`
is set and `committed > 0`, and `0` otherwise. -/
theorem c1_decide_and_target_amended (map : QtyMap) (raise : Bool) :
    (shouldFix map raise = true ↔
      (map.on_hand.getD 0 < 0 ∨
        (map.available.getD 0 < 0 ∧ map.incoming.getD 0 = 0 ∧
          (map.committed.getD 0 = 0 ∨
            (raise = true ∧ map.committed.getD 0 > 0))))) ∧
    (shouldFix map raise = true →
      targetOnHand map raise =
        if raise = true ∧ map.committed.getD 0 > 0 then map.committed.getD 0
        else 0) := by
  constructor
  · simp only [shouldFix, Bool.or_eq_true, Bool.and_eq_true, decide_eq_true_eq]
    cases raise <;> simp <;> tauto
  · intro _
    simp only [targetOnHand]
    cases raise <;> simp

/-- Witness for C1 at a concrete snapshot. -/
theorem c1_witness :
    shouldFix ⟨some 2, some (-4), some 3, some 0⟩ true = true ∧
    targetOnHand ⟨some 2, some (-4), some 3, some 0⟩ true = 3 := by
  refine ⟨by decide, ?_⟩
  have h := (c1_decide_and_target_amended ⟨some 2, some (-4), some 3, some 0⟩ true).2
    (by decide)
  simpa using h

/-- C9, counterexample: the claim quantifies over every snapshot with
`available = -3`, `committed = 0`, `incoming = 2`, but with `onHand = -1`
the engine does decide a correction, for either value of
`allowRaiseToCommitted`. -/
theorem c9_counterexample :
    shouldFix ⟨some (-1), some (-3), some 0, some 2⟩ true = true ∧
    shouldFix ⟨some (-1), some (-3), some 0, some 2⟩ false = true := by
  decide

/-- C9 (amended): for every snapshot with non-negative on-hand,
`available = -3`, `committed = 0` and `incoming = 2`, the engine returns
"no correction" regardless of `allowRaiseToCommitted`. -/
theorem c9_incoming_guard_amended (onHand : Option Int) (raise : Bool)
    (h : 0 ≤ onHand.getD 0) :
    shouldFix ⟨onHand, some (-3), some 0, some 2⟩ raise = false := by
  simp only [shouldFix]
  simp only [Bool.or_eq_false_iff, Bool.and_eq_false_iff]
  constructor
  · simpa using not_lt.mpr h
  · right; simp

/-- Witness for C9 at a concrete snapshot. -/
theorem c9_witness :
    (0 : Int) ≤ (some (5 : Int)).getD 0 ∧
    shouldFix ⟨some 5, some (-3), some 0, some 2⟩ true = false :=
  ⟨by decide, c9_incoming_guard_amended (some 5) true (by decide)⟩

/-! ## Webhook payload and outbound mutation shapes -/

/-- The parsed webhook payload of part_002 (`inventory_item_id`,
`location_id`, `available`), each field possibly absent.  Shopify sends the
identifiers and the quantity as numbers. -/
structure Payload where
  inventory_item_id : Option Int
  location_id : Option Int
  available : Option Int
  deriving Repr, DecidableEq

/-- JavaScript truthiness of an optional numeric field: absent and `0` are
falsy (the source checks `if (!itemId || !locId)`). -/
def truthy : Option Int → Bool
  | none => false
  | some n => n != 0

/-- `gid(type, id)` from part_002 (lines 26-29): normalize a bare identifier
into a fully-qualified `gid://shopify/...` identifier. -/
def gid (ty : String) (s : String) : String :=
  if s.startsWith "gid://" then s else "gid://shopify/" ++ ty ++ "/" ++ s

/-- One entry of the `setQuantities` list of the
`inventorySetOnHandQuantities` mutation. -/
structure SetQuantity where
  inventoryItemId : String
  locationId : String
  quantity : Int
  deriving Repr, DecidableEq

/-- The input object of the `inventorySetOnHandQuantities` mutation. -/
structure MutationInput where
  reason : String
  setQuantities : List SetQuantity
  deriving Repr, DecidableEq

/-! ## Deduplication cache (part_002 / part_005) -/

/-- `SEEN_TTL_MS = 5 * 60 * 1000` from part_002 (line 71). -/
def SEEN_TTL_MS : Int := 5 * 60 * 1000

/-- The dedupe `Map` of part_002 (`const seen = new Map()`), modelled as a
lookup from key to insertion timestamp. -/
def SeenMap : Type := String → Option Int

/-- `seenKey(itemId, locId, available)` from part_002 (line 72):
the template string `${itemId}|${locId}|${available}`. -/
def seenKey (itemId locId available : Int) : String :=
  toString itemId ++ "|" ++ toString locId ++ "|" ++ toString available

/-- `gcSeen()` from part_002 (lines 73-76): delete every entry whose age at
`now` exceeds the TTL. -/
def gcSeen (now : Int) (m : SeenMap) : SeenMap := fun k =>
  match m k with
  | some ts => if now - ts > SEEN_TTL_MS then none else some ts
  | none => none

/-- `seen.set(key, Date.now())` from part_002 (line 103). -/
def markSeen (key : String) (now : Int) (m : SeenMap) : SeenMap := fun k =>
  if k = key then some now else m k

/-- C5: marking a key seen and checking for a duplicate immediately (after
the lazy sweep, as `handleInventoryPayload` does) returns true; once more
than the 5-minute TTL has elapsed since the insertion, the sweep removes the
entry and the check returns false. -/
theorem c5_dedupe_ttl (itemId locId available : Int) (t t' : Int)
    (m : SeenMap) :
    ((gcSeen t (markSeen (seenKey itemId locId available) t m))
      (seenKey itemId locId available)).isSome = true ∧
    (t' - t > SEEN_TTL_MS →
      (gcSeen t' (markSeen (seenKey itemId locId available) t m))
        (seenKey itemId locId available) = none) := by
  constructor
  · simp [gcSeen, markSeen, SEEN_TTL_MS]
  · intro h
    simp only [gcSeen, markSeen, if_pos rfl]
    simp [h]

/-- Witness for C5 at a concrete key, state and pair of times. -/
theorem c5_witness :
    ((gcSeen 0 (markSeen (seenKey 1 2 (-3)) 0 (fun _ => none)))
      (seenKey 1 2 (-3))).isSome = true ∧
    (gcSeen 300001 (markSeen (seenKey 1 2 (-3)) 0 (fun _ => none)))
      (seenKey 1 2 (-3)) = none :=
  ⟨(c5_dedupe_ttl 1 2 (-3) 0 300001 (fun _ => none)).1,
   (c5_dedupe_ttl 1 2 (-3) 0 300001 (fun _ => none)).2 (by decide)⟩

/-! ## Common webhook handler (part_002, `handleInventoryPayload`) -/

/-- The five result objects `handleInventoryPayload` of part_002 can return:
`{ok:true, ignored:...}`, `{ok:true, deduped:true}`,
`{ok:true, negative:false, available}`, `{ok:false, userErrors}` and
`{ok:true, fixed:true, inventory_item_id, location_id, before_available,
set_on_hand_to: 0}`. -/
inductive HandleResult where
  | ignored
  | deduped
  | notNegative (available : Int)
  | fixFailed (userErrors : List String)
  | fixed (itemId locId available : Int)
  deriving Repr, DecidableEq

/-- `handleInventoryPayload(payload)` from part_002 (lines 90-136), with the
ambient state made explicit: it receives the current time and dedupe map and
returns the result, the new dedupe map, and the list of outbound mutation
calls it issued.  `remote` stands for the Shopify endpoint and returns the
`userErrors` list of the mutation response. -/
def handleInventoryPayload (remote : MutationInput → List String) (now : Int)
    (payload : Payload) (seen : SeenMap) :
    HandleResult × SeenMap × List MutationInput :=
  let avail := payload.available.getD 0
  if !truthy payload.inventory_item_id || !truthy payload.location_id then
    (.ignored, seen, [])
  else
    let itemId := payload.inventory_item_id.getD 0
    let locId := payload.location_id.getD 0
    let s1 := gcSeen now seen
    let key := seenKey itemId locId avail
    if (s1 key).isSome then (.deduped, s1, [])
    else
      let s2 := markSeen key now s1
      if avail ≥ 0 then (.notNegative avail, s2, [])
      else
        let input : MutationInput :=
          ⟨"correction",
            [⟨gid "InventoryItem" (toString itemId),
              gid "Location" (toString locId), 0⟩]⟩
        match remote input with
        | [] => (.fixed itemId locId avail, s2, [input])
        | e :: errs => (.fixFailed (e :: errs), s2, [input])

/-- Helper: when both identifiers are truthy and the dedupe key is absent
after the sweep, `handleInventoryPayload` returns the swept map with the key
marked at the current time — on every branch past the dedupe check. -/
theorem handleInventoryPayload_state_of_fresh
    (remote : MutationInput → List String) (now : Int) (p : Payload)
    (seen : SeenMap) (item loc : Int)
    (hid : p.inventory_item_id = some item) (hitem : item ≠ 0)
    (hlo : p.location_id = some loc) (hloc : loc ≠ 0)
    (hfresh : gcSeen now seen (seenKey item loc (p.available.getD 0)) = none) :
    (handleInventoryPayload remote now p seen).2.1 =
      markSeen (seenKey item loc (p.available.getD 0)) now
        (gcSeen now seen) := by
  have h1 : truthy (some item) = true := by simp [truthy, hitem]
  have h2 : truthy (some loc) = true := by simp [truthy, hloc]
  simp only [handleInventoryPayload, hid, hlo, h1, h2, Option.getD_some,
    Bool.not_true, Bool.or_self, Bool.false_or, if_false, hfresh]
  by_cases h : p.available.getD 0 ≥ 0
  · simp [h]
  · simp only [h, if_false]
    cases remote _ <;> simp

/-! ## Signature verification (part_002, `verifyHmac`) -/

/-- `Buffer.from(s)` for the ASCII secrets and bodies in play: the byte
values of the characters. -/
def asciiBytes (s : String) : List Nat := s.data.map Char.toNat

/-- One character of `/^[0-9a-fA-F]+$/`. -/
def isHexDigitChar (c : Char) : Bool :=
  (decide ('0' ≤ c) && decide (c ≤ '9')) ||
  (decide ('a' ≤ c) && decide (c ≤ 'f')) ||
  (decide ('A' ≤ c) && decide (c ≤ 'F'))

/-- The test `/^[0-9a-fA-F]+$/.test(secret)` (non-empty, all hex digits). -/
def hexLike (s : String) : Bool := !s.data.isEmpty && s.data.all isHexDigitChar

/-- The hex-secret condition of part_002 line 48:
`/^[0-9a-fA-F]+$/.test(secret) && secret.length % 2 === 0`. -/
def hexKeyOk (s : String) : Bool := hexLike s && s.data.length % 2 == 0

/-- Numeric value of a hex digit. -/
def hexVal (c : Char) : Nat :=
  if c.isDigit then c.toNat - '0'.toNat
  else if decide ('a' ≤ c) && decide (c ≤ 'f') then c.toNat - 'a'.toNat + 10
  else if decide ('A' ≤ c) && decide (c ≤ 'F') then c.toNat - 'A'.toNat + 10
  else 0

/-- `Buffer.from(secret, 'hex')`: decode consecutive pairs of hex digits. -/
def hexDecodePairs : List Char → List Nat
  | a :: b :: rest => (hexVal a * 16 + hexVal b) :: hexDecodePairs rest
  | _ => []

/-- `.trim()` of a JavaScript string: drop whitespace from both ends.
(Defined over the character list so it evaluates by `decide`.) -/
def jsTrim (s : String) : String :=
  ⟨((s.data.dropWhile Char.isWhitespace).reverse.dropWhile
      Char.isWhitespace).reverse⟩

/-- `verifyHmac(rawBody, signatureB64)` from part_002 (lines 44-57): false
when the secret is absent/empty or the signature header is empty; otherwise
the key is the hex-decoded secret when it looks hex-encoded, else the ASCII
secret; the computed digest and the header signature are both base64-decoded
and compared by length and then constant-time byte equality. -/
def verifyHmac (hmac : List Nat → List Nat → List Nat) (enc : List Nat → String)
    (dec : String → List Nat) (secret : Option String) (signatureB64 : String)
    (rawBody : List Nat) : Bool :=
  match secret with
  | none => false
  | some sec =>
    if sec = "" ∨ signatureB64 = "" then false
    else
      let key := if hexKeyOk sec then hexDecodePairs sec.data else asciiBytes sec
      let a := dec (enc (hmac key rawBody))
      let b := dec signatureB64
      if a.length ≠ b.length then false else a == b

/-! ## Webhook route (part_002, `app.post('/webhooks/inventory_levels/update')`) -/

/-- What the route sends back and does: HTTP status, the JSON result (absent
for the plain-text `Bad HMAC` 401 response), the dedupe map afterwards, and
the outbound mutation calls issued. -/
structure RouteOutput where
  status : Nat
  result : Option HandleResult
  state : SeenMap
  calls : List MutationInput

/-- The webhook route of part_002 (lines 140-166): trim the
`X-Shopify-Hmac-Sha256` header, reject with 401 when verification fails,
otherwise parse the body tolerantly (empty / unparseable / `null` becomes
`{}`, abstracted as `parse` returning `none`) and answer 200 with the result
of `handleInventoryPayload`. -/
def webhookRoute (hmac : List Nat → List Nat → List Nat)
    (enc : List Nat → String) (dec : String → List Nat)
    (secret : Option String) (remote : MutationInput → List String)
    (parse : List Nat → Option Payload) (now : Int) (header : String)
    (rawBody : List Nat) (seen : SeenMap) : RouteOutput :=
  let sig := jsTrim header
  if verifyHmac hmac enc dec secret sig rawBody = false then
    ⟨401, none, seen, []⟩
  else
    let payload := (parse rawBody).getD ⟨none, none, none⟩
    let out := handleInventoryPayload remote now payload seen
    ⟨200, some out.1, out.2.1, out.2.2⟩

/-- C4: a request whose signature fails verification gets HTTP 401, zero
outbound calls and an unchanged dedupe map; and 401 is returned exactly in
that case. -/
theorem c4_unauthorized_iff_bad_hmac (hmac : List Nat → List Nat → List Nat)
    (enc : List Nat → String) (dec : String → List Nat)
    (secret : Option String) (remote : MutationInput → List String)
    (parse : List Nat → Option Payload) (now : Int) (header : String)
    (rawBody : List Nat) (seen : SeenMap) :
    (verifyHmac hmac enc dec secret (jsTrim header) rawBody = false →
      webhookRoute hmac enc dec secret remote parse now header rawBody seen =
        ⟨401, none, seen, []⟩) ∧
    ((webhookRoute hmac enc dec secret remote parse now header rawBody
        seen).status = 401 ↔
      verifyHmac hmac enc dec secret (jsTrim header) rawBody = false) := by
  constructor
  · intro h
    simp [webhookRoute, h]
  · unfold webhookRoute
    by_cases h : verifyHmac hmac enc dec secret (jsTrim header) rawBody = false <;>
      simp [h]

/-- Witness for C4: with no secret configured, verification fails and the
route answers 401 touching nothing. -/
theorem c4_witness :
    verifyHmac (fun _ _ => []) (fun _ => "") (fun _ => []) none "x" [] = false ∧
    webhookRoute (fun _ _ => []) (fun _ => "") (fun _ => []) none
        (fun _ => []) (fun _ => none) 0 "x" [] (fun _ => none) =
      ⟨401, none, fun _ => none, []⟩ := by
  refine ⟨by decide, ?_⟩
  exact (c4_unauthorized_iff_bad_hmac (fun _ _ => []) (fun _ => "")
    (fun _ => []) none (fun _ => []) (fun _ => none) 0 "x" []
    (fun _ => none)).1 (by decide)

/-- C2: a verified webhook whose body parses to truthy identifiers and a
negative `available`, whose dedupe key is fresh, and whose mutation reports
no `userErrors`, issues exactly one outbound set-on-hand mutation with
quantity 0 for that item and location and answers 200 with the `fixed`
result. -/
theorem c2_webhook_negative_fixes (hmac : List Nat → List Nat → List Nat)
    (enc : List Nat → String) (dec : String → List Nat)
    (secret : Option String) (remote : MutationInput → List String)
    (parse : List Nat → Option Payload) (now : Int) (header : String)
    (rawBody : List Nat) (seen : SeenMap) (item loc a : Int)
    (hparse : parse rawBody = some ⟨some item, some loc, some a⟩)
    (hitem : item ≠ 0) (hloc : loc ≠ 0) (ha : a < 0)
    (hsig : verifyHmac hmac enc dec secret (jsTrim header) rawBody = true)
    (hfresh : gcSeen now seen (seenKey item loc a) = none)
    (hremote : remote ⟨"correction",
        [⟨gid "InventoryItem" (toString item),
          gid "Location" (toString loc), 0⟩]⟩ = []) :
    (webhookRoute hmac enc dec secret remote parse now header rawBody
        seen).status = 200 ∧
    (webhookRoute hmac enc dec secret remote parse now header rawBody
        seen).result = some (.fixed item loc a) ∧
    (webhookRoute hmac enc dec secret remote parse now header rawBody
        seen).calls =
      [⟨"correction",
        [⟨gid "InventoryItem" (toString item),
          gid "Location" (toString loc), 0⟩]⟩] := by
  have hv : ¬ verifyHmac hmac enc dec secret (jsTrim header) rawBody = false := by
    simp [hsig]
  simp only [webhookRoute, hv, if_false, hparse, Option.getD_some]
  simp only [handleInventoryPayload, truthy, Option.getD_some, hfresh]
  have h1 : (item != 0) = true := by simpa using hitem
  have h2 : (loc != 0) = true := by simpa using hloc
  have h3 : ¬ a ≥ 0 := not_le.mpr ha
  simp [h1, h2, h3, hremote]

/-- Witness for C2 on the spec's concrete request: item 111, location 222,
available -4. -/
theorem c2_witness :
    (webhookRoute (fun _ _ => []) (fun _ => "") (fun _ => []) (some "s")
        (fun _ => []) (fun _ => some ⟨some 111, some 222, some (-4)⟩) 0 "x" []
        (fun _ => none)).status = 200 ∧
    (webhookRoute (fun _ _ => []) (fun _ => "") (fun _ => []) (some "s")
        (fun _ => []) (fun _ => some ⟨some 111, some 222, some (-4)⟩) 0 "x" []
        (fun _ => none)).result = some (.fixed 111 222 (-4)) ∧
    (webhookRoute (fun _ _ => []) (fun _ => "") (fun _ => []) (some "s")
        (fun _ => []) (fun _ => some ⟨some 111, some 222, some (-4)⟩) 0 "x" []
        (fun _ => none)).calls =
      [⟨"correction",
        [⟨gid "InventoryItem" (toString (111 : Int)),
          gid "Location" (toString (222 : Int)), 0⟩]⟩] :=
  c2_webhook_negative_fixes (fun _ _ => []) (fun _ => "") (fun _ => [])
    (some "s") (fun _ => []) (fun _ => some ⟨some 111, some 222, some (-4)⟩)
    0 "x" [] (fun _ => none) 111 222 (-4) rfl (by decide) (by decide)
    (by decide) (by decide) rfl rfl

/-- C8: a verified request whose body is empty or unparseable is treated as
`{}` and answered 200 with the "ignored: missing identifiers" result, with
no outbound calls and an unchanged dedupe map. -/
theorem c8_malformed_body_ignored (hmac : List Nat → List Nat → List Nat)
    (enc : List Nat → String) (dec : String → List Nat)
    (secret : Option String) (remote : MutationInput → List String)
    (parse : List Nat → Option Payload) (now : Int) (header : String)
    (rawBody : List Nat) (seen : SeenMap)
    (hparse : parse rawBody = none)
    (hsig : verifyHmac hmac enc dec secret (jsTrim header) rawBody = true) :
    webhookRoute hmac enc dec secret remote parse now header rawBody seen =
      ⟨200, some .ignored, seen, []⟩ := by
  have hv : ¬ verifyHmac hmac enc dec secret (jsTrim header) rawBody = false := by
    simp [hsig]
  simp [webhookRoute, hv, hparse, handleInventoryPayload, truthy]

/-- Witness for C8 on an empty body. -/
theorem c8_witness :
    webhookRoute (fun _ _ => []) (fun _ => "") (fun _ => []) (some "s")
        (fun _ => []) (fun _ => none) 0 "x" [] (fun _ => none) =
      ⟨200, some .ignored, fun _ => none, []⟩ :=
  c8_malformed_body_ignored (fun _ _ => []) (fun _ => "") (fun _ => [])
    (some "s") (fun _ => []) (fun _ => none) 0 "x" [] (fun _ => none)
    rfl (by decide)

/-- C6: a payload with truthy identifiers whose dedupe key was fresh at a
first handled request is answered `{ok: true, deduped: true}` with zero
additional outbound mutation calls when replayed within the 5-minute TTL —
for any outcome of the first request's mutation (the key is marked seen
before the outbound call is made). -/
theorem c6_replay_deduped (hmac : List Nat → List Nat → List Nat)
    (enc : List Nat → String) (dec : String → List Nat)
    (secret : Option String) (remote₁ remote₂ : MutationInput → List String)
    (parse : List Nat → Option Payload) (now₁ now₂ : Int) (header : String)
    (rawBody : List Nat) (seen : SeenMap) (item loc : Int) (p : Payload)
    (hparse : parse rawBody = some p)
    (hid : p.inventory_item_id = some item) (hitem : item ≠ 0)
    (hlo : p.location_id = some loc) (hloc : loc ≠ 0)
    (hsig : verifyHmac hmac enc dec secret (jsTrim header) rawBody = true)
    (hfresh : gcSeen now₁ seen (seenKey item loc (p.available.getD 0)) = none)
    (hwithin : now₂ - now₁ ≤ SEEN_TTL_MS) :
    (webhookRoute hmac enc dec secret remote₂ parse now₂ header rawBody
        (webhookRoute hmac enc dec secret remote₁ parse now₁ header rawBody
          seen).state).status = 200 ∧
    (webhookRoute hmac enc dec secret remote₂ parse now₂ header rawBody
        (webhookRoute hmac enc dec secret remote₁ parse now₁ header rawBody
          seen).state).result = some .deduped ∧
    (webhookRoute hmac enc dec secret remote₂ parse now₂ header rawBody
        (webhookRoute hmac enc dec secret remote₁ parse now₁ header rawBody
          seen).state).calls = [] := by
  have hv : ¬ verifyHmac hmac enc dec secret (jsTrim header) rawBody = false := by
    simp [hsig]
  have hstate : (webhookRoute hmac enc dec secret remote₁ parse now₁ header
      rawBody seen).state =
      markSeen (seenKey item loc (p.available.getD 0)) now₁
        (gcSeen now₁ seen) := by
    simp only [webhookRoute, hv, if_false, hparse, Option.getD_some]
    exact handleInventoryPayload_state_of_fresh remote₁ now₁ p seen item loc
      hid hitem hlo hloc hfresh
  have hkey : gcSeen now₂
      (markSeen (seenKey item loc (p.available.getD 0)) now₁
        (gcSeen now₁ seen))
      (seenKey item loc (p.available.getD 0)) = some now₁ := by
    have hle : ¬ now₂ - now₁ > SEEN_TTL_MS := not_lt.mpr hwithin
    simp [gcSeen, markSeen, hle]
  have h1 : truthy (some item) = true := by simp [truthy, hitem]
  have h2 : truthy (some loc) = true := by simp [truthy, hloc]
  rw [hstate]
  simp only [webhookRoute, hv, if_false, hparse, Option.getD_some]
  simp only [handleInventoryPayload, hid, hlo, h1, h2, Option.getD_some,
    Bool.not_true, Bool.or_self, Bool.false_or, if_false, hkey]
  simp

/-- Witness for C6: a concrete replay of the same payload one millisecond
after a first request whose mutation failed. -/
theorem c6_witness :
    (webhookRoute (fun _ _ => []) (fun _ => "") (fun _ => []) (some "s")
        (fun _ => ["boom"]) (fun _ => some ⟨some 1, some 2, some (-3)⟩) 1 "x"
        []
        (webhookRoute (fun _ _ => []) (fun _ => "") (fun _ => []) (some "s")
          (fun _ => ["boom"]) (fun _ => some ⟨some 1, some 2, some (-3)⟩) 0
          "x" [] (fun _ => none)).state).status = 200 ∧
    (webhookRoute (fun _ _ => []) (fun _ => "") (fun _ => []) (some "s")
        (fun _ => ["boom"]) (fun _ => some ⟨some 1, some 2, some (-3)⟩) 1 "x"
        []
        (webhookRoute (fun _ _ => []) (fun _ => "") (fun _ => []) (some "s")
          (fun _ => ["boom"]) (fun _ => some ⟨some 1, some 2, some (-3)⟩) 0
          "x" [] (fun _ => none)).state).result = some .deduped ∧
    (webhookRoute (fun _ _ => []) (fun _ => "") (fun _ => []) (some "s")
        (fun _ => ["boom"]) (fun _ => some ⟨some 1, some 2, some (-3)⟩) 1 "x"
        []
        (webhookRoute (fun _ _ => []) (fun _ => "") (fun _ => []) (some "s")
          (fun _ => ["boom"]) (fun _ => some ⟨some 1, some 2, some (-3)⟩) 0
          "x" [] (fun _ => none)).state).calls = [] :=
  c6_replay_deduped (fun _ _ => []) (fun _ => "") (fun _ => []) (some "s")
    (fun _ => ["boom"]) (fun _ => ["boom"])
    (fun _ => some ⟨some 1, some 2, some (-3)⟩) 0 1 "x" [] (fun _ => none)
    1 2 ⟨some 1, some 2, some (-3)⟩ rfl rfl (by decide) rfl (by decide)
    (by decide) rfl (by decide)

/-! ## Consolidated signature verifier (part_005, `verifyHmacAll`) -/

/-- Which key-decoding interpretation matched (part_005 line 83). -/
inductive HmacMode where
  | ascii
  | hex
  | base64
  deriving Repr, DecidableEq

/-- The return object of `verifyHmacAll`: `{ ok, mode }` (the `digests`
diagnostic field carries no decision information and is omitted). -/
structure VerifyOutcome where
  ok : Bool
  mode : Option HmacMode
  deriving Repr, DecidableEq

/-- `safeEq(a, b)` from part_005 (lines 94-98): length check, then
constant-time byte comparison.  (The `!a || !b` guard never fires: Node
buffers are always truthy.) -/
def safeEq (a b : List Nat) : Bool :=
  if a.length ≠ b.length then false else a == b

/-- The base64-secret condition of part_005 line 75:
`/^[A-Za-z0-9+/=]+$/.test(secret) && secret.includes('=')`. -/
def b64KeyLike (s : String) : Bool :=
  !s.data.isEmpty &&
    s.data.all (fun c => c.isAlphanum || c == '+' || c == '/' || c == '=') &&
    s.data.contains '='

/-- `verifyHmacAll(rawBody, signatureB64)` from part_005 (lines 56-92):
attempts the secret as an ASCII key, as a hex-decoded key when it looks
hex-encoded, and as a base64-decoded key when it looks base64-encoded; each
digest is compared (base64-decoded) against the base64-decoded header
signature with `safeEq`; the first match in that order is the mode and `ok`
is whether any matched. -/
def verifyHmacAll (hmac : List Nat → List Nat → List Nat)
    (enc : List Nat → String) (dec : String → List Nat)
    (secret : Option String) (signatureB64 : String) (rawBody : List Nat) :
    VerifyOutcome :=
  match secret with
  | none => ⟨false, none⟩
  | some sec =>
    if sec = "" ∨ signatureB64 = "" then ⟨false, none⟩
    else
      let headerBuf := dec signatureB64
      let aOk := safeEq (dec (enc (hmac (asciiBytes sec) rawBody))) headerBuf
      let hOk :=
        if hexKeyOk sec then
          safeEq (dec (enc (hmac (hexDecodePairs sec.data) rawBody))) headerBuf
        else false
      let bOk :=
        if b64KeyLike sec then
          safeEq (dec (enc (hmac (dec sec) rawBody))) headerBuf
        else false
      let mode :=
        if aOk then some HmacMode.ascii
        else if hOk then some HmacMode.hex
        else if bOk then some HmacMode.base64
        else none
      ⟨mode.isSome, mode⟩

/-- `safeEq` succeeds exactly on equal-length, byte-equal buffers. -/
theorem safeEq_eq_true_iff (a b : List Nat) :
    safeEq a b = true ↔ a.length = b.length ∧ a = b := by
  unfold safeEq
  by_cases h : a.length = b.length <;> simp [h]

/-- Helper: the value of `(verifyHmacAll ...).ok` for a present, non-empty
secret and non-empty signature, once base64 round-tripping of the computed
digests is taken into account. -/
theorem verifyHmacAll_ok_eq (hmac : List Nat → List Nat → List Nat)
    (enc : List Nat → String) (dec : String → List Nat) (sec : String)
    (sig : String) (rawBody : List Nat)
    (hrt : ∀ bs, dec (enc bs) = bs)
    (hsec : ¬ sec = "") (hsg : ¬ sig = "") :
    (verifyHmacAll hmac enc dec (some sec) sig rawBody).ok =
      (safeEq (hmac (asciiBytes sec) rawBody) (dec sig) ||
        (hexKeyOk sec &&
          safeEq (hmac (hexDecodePairs sec.data) rawBody) (dec sig)) ||
        (b64KeyLike sec && safeEq (hmac (dec sec) rawBody) (dec sig))) := by
  have hcond : ¬ (sec = "" ∨ sig = "") := by
    rintro (h | h) <;> [exact hsec h; exact hsg h]
  simp only [verifyHmacAll, if_neg hcond, hrt]
  generalize safeEq (hmac (asciiBytes sec) rawBody) (dec sig) = A
  generalize safeEq (hmac (hexDecodePairs sec.data) rawBody) (dec sig) = H
  generalize safeEq (hmac (dec sec) rawBody) (dec sig) = B
  generalize hexKeyOk sec = HX
  generalize b64KeyLike sec = BX
  cases A <;> cases H <;> cases B <;> cases HX <;> cases BX <;> decide

/-- C3: the consolidated verifier returns true iff the secret is present and
non-empty, the header signature is non-empty, and at least one attempted
key-decoding interpretation (ASCII; hex when the secret looks hex-encoded;
base64 when it looks base64-encoded) yields an HMAC digest of the same
length as, and byte-equal to, the base64-decoded header signature; in every
other case it returns false, and when the secret is absent it returns
`{ok:false, mode:null}` without consulting the HMAC oracle at all. -/
theorem c3_verify_hmac_all_iff (hmac : List Nat → List Nat → List Nat)
    (enc : List Nat → String) (dec : String → List Nat)
    (secret : Option String) (sig : String) (rawBody : List Nat)
    (hrt : ∀ bs, dec (enc bs) = bs) :
    ((verifyHmacAll hmac enc dec secret sig rawBody).ok = true ↔
      (∃ sec, secret = some sec ∧ ¬ sec = "" ∧ ¬ sig = "" ∧
        (((hmac (asciiBytes sec) rawBody).length = (dec sig).length ∧
            hmac (asciiBytes sec) rawBody = dec sig) ∨
          (hexKeyOk sec = true ∧
            (hmac (hexDecodePairs sec.data) rawBody).length =
              (dec sig).length ∧
            hmac (hexDecodePairs sec.data) rawBody = dec sig) ∨
          (b64KeyLike sec = true ∧
            (hmac (dec sec) rawBody).length = (dec sig).length ∧
            hmac (dec sec) rawBody = dec sig)))) ∧
    (∀ (hm₂ : List Nat → List Nat → List Nat) (e₂ : List Nat → String)
        (d₂ : String → List Nat),
      verifyHmacAll hm₂ e₂ d₂ none sig rawBody = ⟨false, none⟩) := by
  constructor
  · cases secret with
    | none => simp [verifyHmacAll]
    | some sec =>
      by_cases hsec : sec = ""
      · simp [verifyHmacAll, hsec]
      · by_cases hsg : sig = ""
        · simp [verifyHmacAll, hsg]
        · rw [verifyHmacAll_ok_eq hmac enc dec sec sig rawBody hrt hsec hsg]
          simp only [Bool.or_eq_true, Bool.and_eq_true, safeEq_eq_true_iff]
          constructor
          · intro h
            exact ⟨sec, rfl, hsec, hsg, by tauto⟩
          · rintro ⟨sec', heq, -, -, h⟩
            injection heq with he
            subst he
            tauto
  · intro hm₂ e₂ d₂
    rfl

/-- An explicitly invertible byte-buffer/string coding pair (unary runs of
`a` closed by `b`), used to discharge the round-trip hypothesis of the C3
witness with a total proof. -/
def unaryEnc (bs : List Nat) : String :=
  ⟨bs.foldr (fun n acc => List.replicate n 'a' ++ 'b' :: acc) []⟩

/-- Decoder state machine for `unaryEnc`: count `a`s, emit on any other
character. -/
def unaryDecAux : List Char → Nat → List Nat
  | [], _ => []
  | c :: r, k => if c = 'a' then unaryDecAux r (k + 1) else k :: unaryDecAux r 0

/-- Inverse of `unaryEnc`. -/
def unaryDec (s : String) : List Nat := unaryDecAux s.data 0

/-- Reading back a unary run. -/
theorem unaryDecAux_replicate (n k : Nat) (r : List Char) :
    unaryDecAux (List.replicate n 'a' ++ 'b' :: r) k =
      (k + n) :: unaryDecAux r 0 := by
  induction n generalizing k with
  | zero => simp [unaryDecAux]
  | succ n ih =>
    rw [List.replicate_succ, List.cons_append]
    rw [show unaryDecAux ('a' :: (List.replicate n 'a' ++ 'b' :: r)) k =
      unaryDecAux (List.replicate n 'a' ++ 'b' :: r) (k + 1) from by
        simp [unaryDecAux]]
    rw [ih]
    congr 1
    omega

/-- `unaryDec` is a left inverse of `unaryEnc` on every byte buffer. -/
theorem unaryDec_enc (bs : List Nat) : unaryDec (unaryEnc bs) = bs := by
  suffices h : ∀ l : List Nat,
      unaryDecAux (l.foldr (fun n acc => List.replicate n 'a' ++ 'b' :: acc) []) 0 = l by
    exact h bs
  intro l
  induction l with
  | nil => simp [unaryDecAux]
  | cons x t ih =>
    simp only [List.foldr_cons, unaryDecAux_replicate, Nat.zero_add, ih]

/-- Witness for C3: with the unary coding pair and a constant HMAC oracle,
the verifier accepts a concrete request via the ASCII interpretation. -/
theorem c3_witness :
    (verifyHmacAll (fun _ _ => [0]) unaryEnc unaryDec (some "s") "b" []).ok =
      true := by
  have h := c3_verify_hmac_all_iff (fun _ _ => [0]) unaryEnc unaryDec
    (some "s") "b" [] unaryDec_enc
  refine h.1.mpr ⟨"s", rfl, by decide, by decide, Or.inl ?_⟩
  constructor <;> decide

/-! ## Webhook route with BYPASS_HMAC (part_004 / part_005) -/

/-- The webhook route of part_005 (lines 178-217) and part_004: identical to
`webhookRoute` except that the 401 rejection is skipped when the
`BYPASS_HMAC=1` flag is set (`if (!ok && !BYPASS) return 401`), and
verification is done by `verifyHmacAll`.  The handler body is the same
`handleInventoryPayload` (part_005's copy differs from part_002's only in
omitting the diagnostic `before_available` field of the `fixed` result). -/
def webhookRouteBypass (hmac : List Nat → List Nat → List Nat)
    (enc : List Nat → String) (dec : String → List Nat)
    (secret : Option String) (bypass : Bool)
    (remote : MutationInput → List String)
    (parse : List Nat → Option Payload) (now : Int) (header : String)
    (rawBody : List Nat) (seen : SeenMap) : RouteOutput :=
  let sig := jsTrim header
  let v := verifyHmacAll hmac enc dec secret sig rawBody
  if v.ok = false ∧ bypass = false then
    ⟨401, none, seen, []⟩
  else
    let payload := (parse rawBody).getD ⟨none, none, none⟩
    let out := handleInventoryPayload remote now payload seen
    ⟨200, some out.1, out.2.1, out.2.2⟩

/-- C10: with `BYPASS_HMAC=1` the route never rejects — it answers 200 and
runs the correction pipeline on the (possibly unauthenticated) payload —
and 401 occurs exactly when verification fails with the flag unset. -/
theorem c10_bypass_hmac (hmac : List Nat → List Nat → List Nat)
    (enc : List Nat → String) (dec : String → List Nat)
    (secret : Option String) (bypass : Bool)
    (remote : MutationInput → List String)
    (parse : List Nat → Option Payload) (now : Int) (header : String)
    (rawBody : List Nat) (seen : SeenMap) :
    (bypass = true →
      webhookRouteBypass hmac enc dec secret bypass remote parse now header
          rawBody seen =
        ⟨200,
          some (handleInventoryPayload remote now
            ((parse rawBody).getD ⟨none, none, none⟩) seen).1,
          (handleInventoryPayload remote now
            ((parse rawBody).getD ⟨none, none, none⟩) seen).2.1,
          (handleInventoryPayload remote now
            ((parse rawBody).getD ⟨none, none, none⟩) seen).2.2⟩) ∧
    ((webhookRouteBypass hmac enc dec secret bypass remote parse now header
        rawBody seen).status = 401 ↔
      ((verifyHmacAll hmac enc dec secret (jsTrim header) rawBody).ok = false ∧
        bypass = false)) := by
  constructor
  · intro h
    simp [webhookRouteBypass, h]
  · unfold webhookRouteBypass
    by_cases h : (verifyHmacAll hmac enc dec secret (jsTrim header)
        rawBody).ok = false ∧ bypass = false <;>
      simp [h]

/-- Witness for C10: with the flag set and no secret configured
(verification necessarily fails), a concrete request is still answered 200
and processed. -/
theorem c10_witness :
    webhookRouteBypass (fun _ _ => []) (fun _ => "") (fun _ => []) none true
        (fun _ => []) (fun _ => none) 0 "x" [] (fun _ => none) =
      ⟨200,
        some (handleInventoryPayload (fun _ => []) 0
          (((fun (_ : List Nat) => (none : Option Payload)) []).getD
            ⟨none, none, none⟩) (fun _ => none)).1,
        (handleInventoryPayload (fun _ => []) 0
          (((fun (_ : List Nat) => (none : Option Payload)) []).getD
            ⟨none, none, none⟩) (fun _ => none)).2.1,
        (handleInventoryPayload (fun _ => []) 0
          (((fun (_ : List Nat) => (none : Option Payload)) []).getD
            ⟨none, none, none⟩) (fun _ => none)).2.2⟩ :=
  (c10_bypass_hmac (fun _ _ => []) (fun _ => "") (fun _ => []) none true
    (fun _ => []) (fun _ => none) 0 "x" [] (fun _ => none)).1 rfl

/-! ## Batch Corrector (server.js, `applyBatches`) -/

/-- A correction candidate as produced by the scan orchestrators of
`server.js`: identifiers plus `setOnHandTo`, which the batch corrector only
uses when it is a number (`typeof c.setOnHandTo === 'number'`), modelled as
`Option Int`. -/
structure Correction where
  inventoryItemId : String
  locationId : String
  setOnHandTo : Option Int
  deriving Repr, DecidableEq

/-- `BATCH = 200` from `applyBatches` in `server.js` (line 253). -/
def BATCH : Nat := 200

/-- The chunking loop of `applyBatches`
(`for (i = 0; i < n; i += BATCH) slice(i, i + BATCH)`). -/
def batchChunks : List Correction → List (List Correction)
  | [] => []
  | a :: t => ((a :: t).take BATCH) :: batchChunks ((a :: t).drop BATCH)
  termination_by l => l.length
  decreasing_by simp [BATCH, List.length_drop]; omega

/-- The `setQuantities` entry built from one candidate (server.js lines
259-263): `quantity` is `setOnHandTo` when it is a number and `0`
otherwise. -/
def toSetQuantity (c : Correction) : SetQuantity :=
  ⟨c.inventoryItemId, c.locationId, c.setOnHandTo.getD 0⟩

/-- `applyBatches(corrections, reason)` from `server.js` (lines 252-270),
projected onto the sequence of outbound mutation calls it issues, in order.
(The per-chunk response collection and the 200 ms inter-batch delay are I/O
effects with no bearing on the calls made.) -/
def applyBatches (corrections : List Correction) (reason : String) :
    List MutationInput :=
  (batchChunks corrections).map fun batch => ⟨reason, batch.map toSetQuantity⟩

/-- The chunks concatenate back to the candidate list. -/
theorem batchChunks_flatten (l : List Correction) :
    (batchChunks l).flatten = l := by
  have H : ∀ n, ∀ l : List Correction, l.length ≤ n →
      (batchChunks l).flatten = l := by
    intro n
    induction n with
    | zero =>
      intro l hl
      have h0 : l = [] := List.eq_nil_of_length_eq_zero (Nat.le_zero.mp hl)
      subst h0
      simp [batchChunks]
    | succ n ih =>
      intro l hl
      cases l with
      | nil => simp [batchChunks]
      | cons a t =>
        simp only [batchChunks, List.flatten_cons]
        rw [ih ((a :: t).drop BATCH)
          (by simp only [List.length_drop, List.length_cons, BATCH]
              simp only [List.length_cons] at hl
              omega)]
        exact List.take_append_drop BATCH (a :: t)
  exact H l.length l le_rfl

/-- There are exactly `ceil(N / 200)` chunks. -/
theorem batchChunks_length (l : List Correction) :
    (batchChunks l).length = (l.length + 199) / 200 := by
  have H : ∀ n, ∀ l : List Correction, l.length ≤ n →
      (batchChunks l).length = (l.length + 199) / 200 := by
    intro n
    induction n with
    | zero =>
      intro l hl
      have h0 : l = [] := List.eq_nil_of_length_eq_zero (Nat.le_zero.mp hl)
      subst h0
      simp [batchChunks]
    | succ n ih =>
      intro l hl
      cases l with
      | nil => simp [batchChunks]
      | cons a t =>
        simp only [batchChunks, List.length_cons]
        rw [ih ((a :: t).drop BATCH)
          (by simp only [List.length_drop, List.length_cons, BATCH]
              simp only [List.length_cons] at hl
              omega)]
        simp only [List.length_drop, List.length_cons, BATCH]
        omega
  exact H l.length l le_rfl

/-- Every chunk has at most 200 candidates. -/
theorem batchChunks_sizes (l : List Correction) :
    ∀ c ∈ batchChunks l, c.length ≤ 200 := by
  have H : ∀ n, ∀ l : List Correction, l.length ≤ n →
      ∀ c ∈ batchChunks l, c.length ≤ 200 := by
    intro n
    induction n with
    | zero =>
      intro l hl
      have h0 : l = [] := List.eq_nil_of_length_eq_zero (Nat.le_zero.mp hl)
      subst h0
      simp [batchChunks]
    | succ n ih =>
      intro l hl
      cases l with
      | nil => simp [batchChunks]
      | cons a t =>
        simp only [batchChunks]
        intro c hc
        rcases List.mem_cons.mp hc with h | h
        · subst h
          calc ((a :: t).take BATCH).length ≤ BATCH := by
                simp [List.length_take]
            _ ≤ 200 := by simp [BATCH]
        · exact ih ((a :: t).drop BATCH)
            (by simp only [List.length_drop, List.length_cons, BATCH]
                simp only [List.length_cons] at hl
                omega) c h
  exact H l.length l le_rfl

/-- C7: for a candidate list of length `N`, `applyBatches` issues exactly
`ceil(N / 200)` outbound mutation calls, in list order; every call carries
the given reason and at most 200 entries; concatenating the calls'
`setQuantities` recovers every candidate exactly once, in order, with
`quantity` equal to `setOnHandTo` when it is a number and `0` otherwise. -/
theorem c7_apply_batches_partition (corrections : List Correction)
    (reason : String) :
    (applyBatches corrections reason).length =
      (corrections.length + 199) / 200 ∧
    ((applyBatches corrections reason).all fun call =>
      decide (call.setQuantities.length ≤ 200) && (call.reason == reason)) =
        true ∧
    ((applyBatches corrections reason).map fun call =>
      call.setQuantities).flatten = corrections.map toSetQuantity := by
  refine ⟨?_, ?_, ?_⟩
  · simp [applyBatches, batchChunks_length]
  · rw [List.all_eq_true]
    intro call hcall
    rcases List.mem_map.mp hcall with ⟨batch, hb, rfl⟩
    have hlen := batchChunks_sizes corrections batch hb
    simp [hlen]
  · rw [show ((applyBatches corrections reason).map fun call =>
        call.setQuantities) =
        (batchChunks corrections).map fun batch => batch.map toSetQuantity
      from by simp [applyBatches]]
    rw [← List.map_flatten]
    rw [batchChunks_flatten]

/-- Witness for C7 on a concrete two-candidate list. -/
theorem c7_witness :
    (applyBatches [⟨"i", "l", some 5⟩, ⟨"j", "m", none⟩]
      "correction").length = 1 ∧
    ((applyBatches [⟨"i", "l", some 5⟩, ⟨"j", "m", none⟩]
        "correction").map fun call => call.setQuantities).flatten =
      [⟨"i", "l", 5⟩, ⟨"j", "m", 0⟩] := by
  have h := c7_apply_batches_partition
    [⟨"i", "l", some 5⟩, ⟨"j", "m", none⟩] "correction"
  refine ⟨?_, ?_⟩
  · rw [h.1]
    rfl
  · rw [h.2.2]
    rfl
